import Mathlib

/-!
# PlacenoteSDK bridging header: the marshalling shim

A shallow embedding of `Pods/PlacenoteSDK/include/PlacenoteSDK-Bridging-Header.h`.
The header defines four C functions (`initializeSDK`, `setIntrinsicsNative`,
`setFrameNative`, `getPoseNative`) that marshal their arguments into the structs of
the Placenote engine and forward them.

Conventions of the embedding.

* A C function is a state-passing program over a `World`: the heap of `malloc`,
  the memory at which a locked pixel buffer is readable, the chronological trace
  of every external call the shim makes, and the indeterminate contents of its
  uninitialised locals.
* `int` is a Lean `Int` kept in range by `wrapInt` (two's complement, 32 bits);
  `size_t` and `unsigned long` are 64-bit (arm64, the LP64 model) and are a `Nat`
  reduced modulo `2 ^ 64`.  Where C leaves the result of a signed overflow undefined,
  the embedding takes the wrapped value the target's multiply instruction produces.
* No floating-point arithmetic is performed anywhere in the header: values are only
  copied (a conversion between C floating types of the same or a wider precision keeps
  the value).  The floating-point values are therefore a type parameter `F` with a
  zero, and every result holds for all `F`.
* `libPlacenote.h` and the CoreVideo/SceneKit/simd headers are not part of the
  sources.  The structs declared there carry exactly the fields the header names, the
  integer fields being `int`; `kCVPixelBufferLock_ReadOnly` has the value CoreVideo
  gives it.
* The programs run with an allocator that hands out a fresh block for every request.
  A request of `2 ^ 63` bytes or more cannot be satisfied in a 64-bit address space:
  there the real `malloc` returns `NULL`, which the header never tests, and the first
  copy into it kills the process.  `performed` cuts a trace at that point.
-/

set_option linter.unusedVariables false

namespace Placenote

/-! ## Machine integers -/

/-- Two's-complement reduction of an integer to the range of a 32-bit `int`. -/
def wrapInt (z : Int) : Int := (z + 2 ^ 31) % 2 ^ 32 - 2 ^ 31

/-- Conversion `size_t → int`, as in `int yWidth = CVPixelBufferGetWidthOfPlane (..)`. -/
def toInt (n : Nat) : Int := wrapInt (n : Int)

/-- Product of two `int`s computed in `int`, as in `yStride * yHeight`. -/
def mulInt (a b : Int) : Int := wrapInt (a * b)

/-- Conversion `int → unsigned long`, as in `unsigned long numBytesY = <int>`. -/
def toULong (z : Int) : Nat := (z % 2 ^ 64).toNat

/-- Product of two `size_t`s computed in `size_t`. -/
def mulSizeT (a b : Nat) : Nat := (a * b) % 2 ^ 64

/-! ## Memory -/

/-- One `uint8_t`. -/
abbrev Byte := Fin 256

/-- A data pointer: into the memory at which CoreVideo exposes pixel data, or into a
block handed out by `malloc`. -/
inductive Ptr where
  | pixel (addr : Nat)
  | heap (block : Nat) (off : Nat)
deriving DecidableEq

/-- Pointer arithmetic `p + i` on a byte pointer. -/
def Ptr.add : Ptr → Nat → Ptr
  | .pixel a, i => .pixel (a + i)
  | .heap b o, i => .heap b (o + i)

/-- The index `i` with `p = base + i`, when `p` lies in the object of `base` at or
after `base`. -/
def Ptr.offsetFrom : Ptr → Ptr → Option Nat
  | .pixel a, .pixel a0 => if a0 ≤ a then some (a - a0) else none
  | .heap b o, .heap b0 o0 => if b = b0 ∧ o0 ≤ o then some (o - o0) else none
  | _, _ => none

/-- Byte-addressed memory with the bookkeeping of the allocator. -/
structure Memory where
  /-- Contents of every address. -/
  bytes : Ptr → Byte
  /-- Size requested for each block handed out by `malloc`. -/
  size : Nat → Nat
  /-- Whether a block is allocated and not yet freed. -/
  live : Nat → Bool
  /-- The next block `malloc` hands out. -/
  next : Nat

/-- The `n` bytes found at `p`, `p + 1`, ... -/
def Memory.read (m : Memory) (p : Ptr) (n : Nat) : List Byte :=
  (List.range n).map fun i => m.bytes (p.add i)

/-- The whole allocation a heap pointer points into, read from the pointer on. -/
def Memory.buffer (m : Memory) : Ptr → List Byte
  | .heap b o => m.read (.heap b o) (m.size b - o)
  | .pixel _ => []

/-! ## Data model of the foreign headers -/

/-- A `const char*`, modelled by the string it points to. -/
abbrev CString := String

/-- A `void*` context, never dereferenced by the shim. -/
abbrev VoidPtr := Nat

/-- A `result_callback` function pointer, never called by the shim. -/
abbrev result_callback := Nat

/-- The `CVPixelBufferLockFlags` constant `kCVPixelBufferLock_ReadOnly`. -/
def kCVPixelBufferLock_ReadOnly : Nat := 1

structure PNInitParams where
  apiKey : CString
  appBasePath : CString
  mapPath : CString

structure PNCameraInstrinsics (F : Type) where
  width : Int
  height : Int
  fx : F
  fy : F
  cx : F
  cy : F
  k1 : F
  k2 : F
  p1 : F
  p2 : F

structure PNImagePlane where
  buf : Ptr
  width : Int
  height : Int
  stride : Int

structure PNVector3 (F : Type) where
  x : F
  y : F
  z : F

structure PNQuaternion (F : Type) where
  x : F
  y : F
  z : F
  w : F

structure PNTransform (F : Type) where
  position : PNVector3 F
  rotation : PNQuaternion F

structure SCNVector3 (F : Type) where
  x : F
  y : F
  z : F

structure SCNVector4 (F : Type) where
  x : F
  y : F
  z : F
  w : F

structure simd_float3 (F : Type) where
  x : F
  y : F
  z : F

/-- The simd type `matrix_float3x3`: three columns. -/
structure matrix_float3x3 (F : Type) where
  columns : Fin 3 → simd_float3 F

/-- One plane of a pixel buffer, as CoreVideo reports it (`size_t` values and the
address at which the plane is readable while the buffer is locked). -/
structure CVPlane where
  width : Nat
  height : Nat
  bytesPerRow : Nat
  baseAddress : Nat

/-- The object behind a `CVPixelBufferRef`: its planes and the contents of its backing
store. -/
structure CVPixelBuffer where
  planes : Nat → CVPlane
  data : Nat → Byte

/-- The bytes of the backing store found from address `a` on. -/
def CVPixelBuffer.read (fb : CVPixelBuffer) (a n : Nat) : List Byte :=
  (List.range n).map fun i => fb.data (a + i)

/-! ## The world of the shim -/

/-- One external call made by the shim.  An engine call that receives pointers into
memory is recorded with the memory it can read at that moment. -/
inductive Event (F : Type) where
  | PNInitialize (params : PNInitParams) (cb : result_callback) (ctx : VoidPtr)
  | PNSetIntrinsics (intrinsics : PNCameraInstrinsics F)
  | PNSetFrame (yPlane vuPlane : PNImagePlane) (pose : PNTransform F) (mem : Memory)
  | PNGetPose (pose : PNTransform F)
  | CVPixelBufferGetWidthOfPlane (plane : Nat)
  | CVPixelBufferGetHeightOfPlane (plane : Nat)
  | CVPixelBufferGetBytesPerRowOfPlane (plane : Nat)
  | CVPixelBufferGetBaseAddressOfPlane (plane : Nat)
  | CVPixelBufferLockBaseAddress (flags : Nat)
  | CVPixelBufferUnlockBaseAddress (flags : Nat)
  | malloc (size : Nat) (ret : Ptr)
  | memcpy (dst src : Ptr) (n : Nat)
  | free (p : Ptr)

/-- Contents of the automatic variables the header declares without an initialiser. -/
structure Uninit (F : Type) where
  params : PNInitParams
  intrinsics : PNCameraInstrinsics F
  yPlane : PNImagePlane
  vuPlane : PNImagePlane
  arkitPose : PNTransform F
  pose : PNTransform F

/-- The engine as far as the shim can observe it: what `PNGetPose` leaves in the struct
it is given, which may depend on everything that happened before. -/
structure Engine (F : Type) where
  getPose : List (Event F) → PNTransform F → PNTransform F

structure World (F : Type) where
  mem : Memory
  trace : List (Event F)
  uninit : Uninit F
  engine : Engine F

/-- Programs of the shim. -/
abbrev Shim (F : Type) := StateM (World F)

variable {F : Type}

/-- Record an external call. -/
def emit (e : Event F) : Shim F Unit :=
  modify fun w => { w with trace := w.trace ++ [e] }

/-! ## External functions -/

/-- The allocator hands out the next block, of the requested size; its contents are
whatever the memory holds there. -/
def Memory.malloc (m : Memory) (n : Nat) : Ptr × Memory :=
  (Ptr.heap m.next 0,
    { m with
      size := Function.update m.size m.next n
      live := Function.update m.live m.next true
      next := m.next + 1 })

def malloc (n : Nat) : Shim F Ptr := do
  let w ← get
  let (p, mem) := w.mem.malloc n
  set { w with mem := mem }
  emit (.malloc n p)
  return p

/-- Copy of `n` bytes between objects that do not overlap. -/
def Memory.memcpy (m : Memory) (dst src : Ptr) (n : Nat) : Memory :=
  { m with bytes := fun p =>
      match p.offsetFrom dst with
      | some i => if i < n then m.bytes (src.add i) else m.bytes p
      | none => m.bytes p }

def memcpy (dst src : Ptr) (n : Nat) : Shim F Unit := do
  modify fun w => { w with mem := w.mem.memcpy dst src n }
  emit (.memcpy dst src n)

/-- Release of the block a pointer points into. -/
def Memory.free (m : Memory) : Ptr → Memory
  | .heap b _ => { m with live := Function.update m.live b false }
  | .pixel _ => m

def free (p : Ptr) : Shim F Unit := do
  modify fun w => { w with mem := w.mem.free p }
  emit (.free p)

def CVPixelBufferGetWidthOfPlane (fb : CVPixelBuffer) (planeIndex : Nat) : Shim F Nat := do
  emit (.CVPixelBufferGetWidthOfPlane planeIndex)
  return (fb.planes planeIndex).width

def CVPixelBufferGetHeightOfPlane (fb : CVPixelBuffer) (planeIndex : Nat) : Shim F Nat := do
  emit (.CVPixelBufferGetHeightOfPlane planeIndex)
  return (fb.planes planeIndex).height

def CVPixelBufferGetBytesPerRowOfPlane (fb : CVPixelBuffer) (planeIndex : Nat) :
    Shim F Nat := do
  emit (.CVPixelBufferGetBytesPerRowOfPlane planeIndex)
  return (fb.planes planeIndex).bytesPerRow

def CVPixelBufferGetBaseAddressOfPlane (fb : CVPixelBuffer) (planeIndex : Nat) :
    Shim F Ptr := do
  emit (.CVPixelBufferGetBaseAddressOfPlane planeIndex)
  return Ptr.pixel (fb.planes planeIndex).baseAddress

/-- Locking makes the pixel data of the buffer readable at its base addresses. -/
def Memory.lock (m : Memory) (fb : CVPixelBuffer) : Memory :=
  { m with bytes := fun p =>
      match p with
      | .pixel a => fb.data a
      | .heap b o => m.bytes (.heap b o) }

def CVPixelBufferLockBaseAddress (fb : CVPixelBuffer) (flags : Nat) : Shim F Unit := do
  modify fun w => { w with mem := w.mem.lock fb }
  emit (.CVPixelBufferLockBaseAddress flags)

def CVPixelBufferUnlockBaseAddress (fb : CVPixelBuffer) (flags : Nat) : Shim F Unit :=
  emit (.CVPixelBufferUnlockBaseAddress flags)

def PNInitialize (params : PNInitParams) (cb : result_callback) (ctx : VoidPtr) :
    Shim F Unit :=
  emit (.PNInitialize params cb ctx)

def PNSetIntrinsics (intrinsics : PNCameraInstrinsics F) : Shim F Unit :=
  emit (.PNSetIntrinsics intrinsics)

def PNSetFrame (yPlane vuPlane : PNImagePlane) (pose : PNTransform F) : Shim F Unit := do
  let w ← get
  emit (.PNSetFrame yPlane vuPlane pose w.mem)

/-- The engine call `PNGetPose(&pose)`: the result is the struct as the engine leaves
it. -/
def PNGetPose (pose : PNTransform F) : Shim F (PNTransform F) := do
  let w ← get
  emit (.PNGetPose pose)
  return w.engine.getPose w.trace pose

/-! ## The four functions of the header -/

def initializeSDK (apiKey mapPath appBasePath : CString) (swiftContext : VoidPtr)
    (cb : result_callback) : Shim F Unit := do
  let params := (← get).uninit.params
  let params : PNInitParams := { params with apiKey := apiKey }
  let params : PNInitParams := { params with appBasePath := appBasePath }
  let params : PNInitParams := { params with mapPath := mapPath }
  PNInitialize params cb swiftContext

def setIntrinsicsNative [Zero F] (width height : Int) (calibMat : matrix_float3x3 F) :
    Shim F Unit := do
  let intrinsics := (← get).uninit.intrinsics
  let intrinsics : PNCameraInstrinsics F := { intrinsics with width := width }
  let intrinsics : PNCameraInstrinsics F := { intrinsics with height := height }
  let intrinsics : PNCameraInstrinsics F := { intrinsics with fx := (calibMat.columns 0).x }
  let intrinsics : PNCameraInstrinsics F := { intrinsics with fy := (calibMat.columns 1).y }
  let intrinsics : PNCameraInstrinsics F := { intrinsics with cx := (calibMat.columns 2).x }
  let intrinsics : PNCameraInstrinsics F := { intrinsics with cy := (calibMat.columns 2).y }
  let intrinsics : PNCameraInstrinsics F := { intrinsics with p2 := 0 }
  let intrinsics : PNCameraInstrinsics F := { intrinsics with p1 := intrinsics.p2 }
  let intrinsics : PNCameraInstrinsics F := { intrinsics with k2 := intrinsics.p1 }
  let intrinsics : PNCameraInstrinsics F := { intrinsics with k1 := intrinsics.k2 }
  PNSetIntrinsics intrinsics

def setFrameNative (frameBuffer : CVPixelBuffer) (position : SCNVector3 F)
    (rotation : SCNVector4 F) : Shim F Unit := do
  let yWidth : Int := toInt (← CVPixelBufferGetWidthOfPlane frameBuffer 0)
  let uvWidth : Int := toInt (← CVPixelBufferGetWidthOfPlane frameBuffer 1)
  let yHeight : Int := toInt (← CVPixelBufferGetHeightOfPlane frameBuffer 0)
  let uvHeight : Int := toInt (← CVPixelBufferGetHeightOfPlane frameBuffer 1)
  let yStride : Int := toInt (← CVPixelBufferGetBytesPerRowOfPlane frameBuffer 0)
  let uvStride : Int := toInt (← CVPixelBufferGetBytesPerRowOfPlane frameBuffer 1)

  let numBytesY : Nat := toULong (mulInt yStride yHeight)
  let numBytesUV : Nat := toULong (mulInt uvStride uvHeight)

  let yPixelBytes ← malloc numBytesY
  let uvPixelBytes ← malloc numBytesUV

  CVPixelBufferLockBaseAddress frameBuffer kCVPixelBufferLock_ReadOnly

  let numBytes : Nat := mulSizeT (← CVPixelBufferGetBytesPerRowOfPlane frameBuffer 0)
    (← CVPixelBufferGetHeightOfPlane frameBuffer 0)
  let baseAddressY ← CVPixelBufferGetBaseAddressOfPlane frameBuffer 0
  memcpy yPixelBytes baseAddressY numBytesY
  let baseAddressUV ← CVPixelBufferGetBaseAddressOfPlane frameBuffer 1
  memcpy uvPixelBytes baseAddressUV numBytesUV
  CVPixelBufferUnlockBaseAddress frameBuffer 0

  let yPlane := (← get).uninit.yPlane
  let vuPlane := (← get).uninit.vuPlane
  let yPlane : PNImagePlane := { yPlane with buf := yPixelBytes }
  let yPlane : PNImagePlane := { yPlane with width := yWidth }
  let yPlane : PNImagePlane := { yPlane with height := yHeight }
  let yPlane : PNImagePlane := { yPlane with stride := yStride }

  let vuPlane : PNImagePlane := { vuPlane with buf := uvPixelBytes }
  let vuPlane : PNImagePlane := { vuPlane with width := uvWidth }
  let vuPlane : PNImagePlane := { vuPlane with height := uvHeight }
  let vuPlane : PNImagePlane := { vuPlane with stride := uvStride }

  let arkitPose := (← get).uninit.arkitPose
  let arkitPose : PNTransform F :=
    { arkitPose with position := { arkitPose.position with x := position.x } }
  let arkitPose : PNTransform F :=
    { arkitPose with position := { arkitPose.position with y := position.y } }
  let arkitPose : PNTransform F :=
    { arkitPose with position := { arkitPose.position with z := position.z } }
  let arkitPose : PNTransform F :=
    { arkitPose with rotation := { arkitPose.rotation with x := rotation.x } }
  let arkitPose : PNTransform F :=
    { arkitPose with rotation := { arkitPose.rotation with y := rotation.y } }
  let arkitPose : PNTransform F :=
    { arkitPose with rotation := { arkitPose.rotation with z := rotation.z } }
  let arkitPose : PNTransform F :=
    { arkitPose with rotation := { arkitPose.rotation with w := rotation.w } }

  PNSetFrame yPlane vuPlane arkitPose
  free yPixelBytes
  free uvPixelBytes

def getPoseNative : Shim F (PNTransform F) := do
  let pose := (← get).uninit.pose
  let pose ← PNGetPose pose
  return pose

/-! ## Observing a run -/

/-- The world a program of the shim leaves behind. -/
def after {α : Type} (prog : Shim F α) (w : World F) : World F := (prog.run w).2

/-- The value a program of the shim returns. -/
def result {α : Type} (prog : Shim F α) (w : World F) : α := (prog.run w).1

/-- The external calls made on the way from world `w` to world `r`. -/
def newEvents (w r : World F) : List (Event F) := r.trace.drop w.trace.length

/-- What one `PNSetFrame` call receives: the two plane descriptors, the pose, and the
memory their `buf` pointers point into. -/
structure FrameCall (F : Type) where
  yPlane : PNImagePlane
  vuPlane : PNImagePlane
  pose : PNTransform F
  mem : Memory

/-- The `PNSetFrame` calls of a trace, in order. -/
def frameCalls (t : List (Event F)) : List (FrameCall F) :=
  t.filterMap fun e =>
    match e with
    | .PNSetFrame y vu pose mem => some ⟨y, vu, pose, mem⟩
    | _ => none

/-- The structs given to the `PNSetIntrinsics` calls of a trace, in order. -/
def intrinsicsCalls (t : List (Event F)) : List (PNCameraInstrinsics F) :=
  t.filterMap fun e =>
    match e with
    | .PNSetIntrinsics i => some i
    | _ => none

/-- The arguments of the `PNInitialize` calls of a trace, in the order of the engine's
parameter list: params, callback, context. -/
def initCalls (t : List (Event F)) : List (PNInitParams × result_callback × VoidPtr) :=
  t.filterMap fun e =>
    match e with
    | .PNInitialize params cb ctx => some (params, cb, ctx)
    | _ => none

/-- The flags of the `CVPixelBufferLockBaseAddress` calls of a trace. -/
def lockFlags (t : List (Event F)) : List Nat :=
  t.filterMap fun e =>
    match e with
    | .CVPixelBufferLockBaseAddress flags => some flags
    | _ => none

/-- The flags of the `CVPixelBufferUnlockBaseAddress` calls of a trace. -/
def unlockFlags (t : List (Event F)) : List Nat :=
  t.filterMap fun e =>
    match e with
    | .CVPixelBufferUnlockBaseAddress flags => some flags
    | _ => none

/-- The sizes requested from `malloc` in a trace. -/
def mallocSizes (t : List (Event F)) : List Nat :=
  t.filterMap fun e =>
    match e with
    | .malloc n _ => some n
    | _ => none

/-- The byte counts given to `memcpy` in a trace. -/
def memcpySizes (t : List (Event F)) : List Nat :=
  t.filterMap fun e =>
    match e with
    | .memcpy _ _ n => some n
    | _ => none

/-- The value `setFrameNative` computes for `numBytesY` (plane 0) and `numBytesUV`
(plane 1): the product of the `int` stride and the `int` height, taken in `int`, then
widened to `unsigned long`. -/
def numBytesOf (p : CVPlane) : Nat := toULong (mulInt (toInt p.bytesPerRow) (toInt p.height))

/-- The memory in which `PNSetFrame` finds the two private buffers: two allocations,
the lock, two copies. -/
def frameMemory (fb : CVPixelBuffer) (m : Memory) : Memory :=
  let m1 := (m.malloc (numBytesOf (fb.planes 0))).2
  let m2 := (m1.malloc (numBytesOf (fb.planes 1))).2
  let m3 := m2.lock fb
  let m4 := m3.memcpy (.heap m.next 0) (.pixel (fb.planes 0).baseAddress) (numBytesOf (fb.planes 0))
  m4.memcpy (.heap (m.next + 1) 0) (.pixel (fb.planes 1).baseAddress) (numBytesOf (fb.planes 1))

/-- The external calls of `setFrameNative`, in order, with their arguments. -/
def setFrameEvents (fb : CVPixelBuffer) (pos : SCNVector3 F) (rot : SCNVector4 F)
    (m : Memory) : List (Event F) :=
  [.CVPixelBufferGetWidthOfPlane 0, .CVPixelBufferGetWidthOfPlane 1,
   .CVPixelBufferGetHeightOfPlane 0, .CVPixelBufferGetHeightOfPlane 1,
   .CVPixelBufferGetBytesPerRowOfPlane 0, .CVPixelBufferGetBytesPerRowOfPlane 1,
   .malloc (numBytesOf (fb.planes 0)) (.heap m.next 0),
   .malloc (numBytesOf (fb.planes 1)) (.heap (m.next + 1) 0),
   .CVPixelBufferLockBaseAddress kCVPixelBufferLock_ReadOnly,
   .CVPixelBufferGetBytesPerRowOfPlane 0, .CVPixelBufferGetHeightOfPlane 0,
   .CVPixelBufferGetBaseAddressOfPlane 0,
   .memcpy (.heap m.next 0) (.pixel (fb.planes 0).baseAddress) (numBytesOf (fb.planes 0)),
   .CVPixelBufferGetBaseAddressOfPlane 1,
   .memcpy (.heap (m.next + 1) 0) (.pixel (fb.planes 1).baseAddress)
     (numBytesOf (fb.planes 1)),
   .CVPixelBufferUnlockBaseAddress 0,
   .PNSetFrame
     ⟨.heap m.next 0, toInt (fb.planes 0).width, toInt (fb.planes 0).height,
       toInt (fb.planes 0).bytesPerRow⟩
     ⟨.heap (m.next + 1) 0, toInt (fb.planes 1).width, toInt (fb.planes 1).height,
       toInt (fb.planes 1).bytesPerRow⟩
     ⟨⟨pos.x, pos.y, pos.z⟩, ⟨rot.x, rot.y, rot.z, rot.w⟩⟩
     (frameMemory fb m),
   .free (.heap m.next 0), .free (.heap (m.next + 1) 0)]

/-- What the engine can read of one plane argument: the private buffer its `buf`
points to, and the three dimensions. -/
structure PlaneView where
  bytes : List Byte
  width : Int
  height : Int
  stride : Int

/-- The view of a plane descriptor in the memory it is passed with. -/
def PNImagePlane.view (p : PNImagePlane) (m : Memory) : PlaneView :=
  ⟨m.buffer p.buf, p.width, p.height, p.stride⟩

/-- One engine call as the engine observes it: pointer arguments are replaced by what
they point to, and the out-parameter of `PNGetPose` carries nothing in. -/
inductive EngineCall (F : Type) where
  | PNInitialize (params : PNInitParams) (cb : result_callback) (ctx : VoidPtr)
  | PNSetIntrinsics (intrinsics : PNCameraInstrinsics F)
  | PNSetFrame (yPlane vuPlane : PlaneView) (pose : PNTransform F)
  | PNGetPose

/-- The engine call an event is, if it is one. -/
def Event.toEngineCall : Event F → Option (EngineCall F)
  | .PNInitialize params cb ctx => some (.PNInitialize params cb ctx)
  | .PNSetIntrinsics i => some (.PNSetIntrinsics i)
  | .PNSetFrame y vu pose mem => some (.PNSetFrame (y.view mem) (vu.view mem) pose)
  | .PNGetPose _ => some .PNGetPose
  | _ => none

/-- The engine calls of a trace, in order. -/
def engineCalls (t : List (Event F)) : List (EngineCall F) := t.filterMap Event.toEngineCall

/-- One call of an entry point of the shim, with its arguments. -/
inductive ShimCall (F : Type) where
  | initializeSDK (apiKey mapPath appBasePath : CString) (swiftContext : VoidPtr)
      (cb : result_callback)
  | setIntrinsicsNative (width height : Int) (calibMat : matrix_float3x3 F)
  | setFrameNative (frameBuffer : CVPixelBuffer) (position : SCNVector3 F)
      (rotation : SCNVector4 F)
  | getPoseNative

/-- Running one call of the shim. -/
def ShimCall.exec [Zero F] : ShimCall F → World F → World F
  | .initializeSDK apiKey mapPath appBasePath swiftContext cb =>
      after (Placenote.initializeSDK apiKey mapPath appBasePath swiftContext cb)
  | .setIntrinsicsNative width height calibMat =>
      after (Placenote.setIntrinsicsNative width height calibMat)
  | .setFrameNative frameBuffer position rotation =>
      after (Placenote.setFrameNative frameBuffer position rotation)
  | .getPoseNative => after Placenote.getPoseNative

/-- Running a sequence of calls of the shim, one after the other. -/
def run [Zero F] (calls : List (ShimCall F)) (w : World F) : World F :=
  calls.foldl (fun acc c => c.exec acc) w

/-- The engine call the specification attributes to a call of the shim: a function of
the arguments of that call (the pixel buffer with its contents among them) and of
nothing else. -/
def ShimCall.engineCall [Zero F] : ShimCall F → EngineCall F
  | .initializeSDK apiKey mapPath appBasePath swiftContext cb =>
      .PNInitialize ⟨apiKey, appBasePath, mapPath⟩ cb swiftContext
  | .setIntrinsicsNative width height calibMat =>
      .PNSetIntrinsics ⟨width, height, (calibMat.columns 0).x, (calibMat.columns 1).y,
        (calibMat.columns 2).x, (calibMat.columns 2).y, 0, 0, 0, 0⟩
  | .setFrameNative fb position rotation =>
      .PNSetFrame
        ⟨fb.read (fb.planes 0).baseAddress (numBytesOf (fb.planes 0)),
          toInt (fb.planes 0).width, toInt (fb.planes 0).height, toInt (fb.planes 0).bytesPerRow⟩
        ⟨fb.read (fb.planes 1).baseAddress (numBytesOf (fb.planes 1)),
          toInt (fb.planes 1).width, toInt (fb.planes 1).height, toInt (fb.planes 1).bytesPerRow⟩
        ⟨⟨position.x, position.y, position.z⟩,
          ⟨rotation.x, rotation.y, rotation.z, rotation.w⟩⟩
  | .getPoseNative => .PNGetPose

/-! ## The run of a real process -/

/-- Whether `malloc` returns `NULL` for a request of `n` bytes because no object of a
64-bit address space can be that large (`n` exceeds `PTRDIFF_MAX`). -/
def mallocReturnsNull (n : Nat) : Bool := decide (2 ^ 63 ≤ n)

/-- The calls of a trace a real process gets to make, given the pointers that stand for
a `NULL` returned so far: the trace up to and including the first `memcpy` of at least
one byte into such a pointer, where the process dies. -/
def performedFrom (nulls : List Ptr) : List (Event F) → List (Event F)
  | [] => []
  | .malloc n p :: t =>
      .malloc n p :: performedFrom (if mallocReturnsNull n then p :: nulls else nulls) t
  | .memcpy dst src n :: t =>
      if dst ∈ nulls ∧ 0 < n then [.memcpy dst src n]
      else .memcpy dst src n :: performedFrom nulls t
  | e :: t => e :: performedFrom nulls t

/-- The calls of a trace a real process gets to make. -/
def performed (t : List (Event F)) : List (Event F) := performedFrom [] t

/-! ## Concrete inputs -/

/-- A memory in which nothing is allocated. -/
def exampleMemory : Memory := ⟨fun _ => 0, fun _ => 0, fun _ => false, 0⟩

/-- A world in which nothing has happened yet, with `Int` standing for the floats. -/
def exampleWorld : World Int :=
  { mem := exampleMemory
    trace := []
    uninit :=
      { params := ⟨"?", "?", "?"⟩
        intrinsics := ⟨-1, -1, 9, 9, 9, 9, 9, 9, 9, 9⟩
        yPlane := ⟨.pixel 77, -1, -1, -1⟩
        vuPlane := ⟨.pixel 77, -1, -1, -1⟩
        arkitPose := ⟨⟨9, 9, 9⟩, ⟨9, 9, 9, 9⟩⟩
        pose := ⟨⟨9, 9, 9⟩, ⟨9, 9, 9, 9⟩⟩ }
    engine := ⟨fun _ _ => ⟨⟨1, 2, 3⟩, ⟨4, 5, 6, 7⟩⟩⟩ }

/-- A small two-plane buffer: plane 0 is 2x2 with 3 bytes a row at address 0, plane 1
is 2x1 with 4 bytes a row at address 10; the byte at address `a` is `a`. -/
def exampleFrame : CVPixelBuffer :=
  { planes := fun i => if i = 0 then ⟨2, 2, 3, 0⟩ else ⟨2, 1, 4, 10⟩
    data := fun a => Fin.ofNat a }

/-- A buffer whose plane 0 has 46341 rows of 46341 bytes: stride and height are
representable as `int`, their product 2147488281 is not. -/
def hugeFrame : CVPixelBuffer :=
  { planes := fun i => if i = 0 then ⟨46341, 46341, 46341, 0⟩ else ⟨0, 0, 0, 0⟩
    data := fun _ => 0 }

def examplePosition : SCNVector3 Int := ⟨1, 2, 3⟩

def exampleRotation : SCNVector4 Int := ⟨4, 5, 6, 7⟩

/-! ## Results -/

/-- Appending events one at a time is appending the list of them. -/
theorem foldl_snoc {α : Type} (t es : List α) :
    List.foldl (fun acc e => acc ++ [e]) t es = t ++ es := by
  induction es generalizing t with
  | nil => simp
  | cons e es ih => simp [ih]

theorem setFrameNative_trace (fb : CVPixelBuffer) (pos : SCNVector3 F) (rot : SCNVector4 F)
    (w : World F) :
    (after (setFrameNative fb pos rot) w).trace = w.trace ++ setFrameEvents fb pos rot w.mem := by
  have h : (after (setFrameNative fb pos rot) w).trace
      = List.foldl (fun acc e => acc ++ [e]) w.trace (setFrameEvents fb pos rot w.mem) := rfl
  rw [h, foldl_snoc]

/-- The private Y buffer holds the first `numBytesY` bytes of plane 0. -/
theorem frameMemory_buffer_y (fb : CVPixelBuffer) (m : Memory) :
    (frameMemory fb m).buffer (.heap m.next 0)
      = fb.read (fb.planes 0).baseAddress (numBytesOf (fb.planes 0)) := by
  simp only [Memory.buffer, frameMemory, Memory.memcpy, Memory.malloc, Memory.lock, Memory.read,
    CVPixelBuffer.read, Ptr.add, Ptr.offsetFrom]
  have hsz : Function.update (Function.update m.size m.next (numBytesOf (fb.planes 0)))
      (m.next + 1) (numBytesOf (fb.planes 1)) m.next - 0 = numBytesOf (fb.planes 0) := by
    simp [Function.update]
  rw [hsz]
  apply List.map_congr_left
  intro i hi
  have hi' : i < numBytesOf (fb.planes 0) := List.mem_range.mp hi
  simp [hi']

/-- The private UV buffer holds the first `numBytesUV` bytes of plane 1. -/
theorem frameMemory_buffer_uv (fb : CVPixelBuffer) (m : Memory) :
    (frameMemory fb m).buffer (.heap (m.next + 1) 0)
      = fb.read (fb.planes 1).baseAddress (numBytesOf (fb.planes 1)) := by
  simp only [Memory.buffer, frameMemory, Memory.memcpy, Memory.malloc, Memory.lock, Memory.read,
    CVPixelBuffer.read, Ptr.add, Ptr.offsetFrom]
  have hsz : Function.update (Function.update m.size m.next (numBytesOf (fb.planes 0)))
      (m.next + 1) (numBytesOf (fb.planes 1)) (m.next + 1) - 0 = numBytesOf (fb.planes 1) := by
    simp [Function.update]
  rw [hsz]
  apply List.map_congr_left
  intro i hi
  have hi' : i < numBytesOf (fb.planes 1) := List.mem_range.mp hi
  simp [hi']

/-- An `int` product that fits is computed exactly and survives the widening. -/
theorem toULong_mulInt_of_fits (a b : Int) (h0 : 0 ≤ a * b) (h1 : a * b < 2 ^ 31) :
    toULong (mulInt a b) = (a * b).toNat := by
  unfold toULong mulInt wrapInt
  generalize a * b = z at *
  omega

/-- A `size_t` that is representable as an `int` converts to itself. -/
theorem toInt_of_fits (n : Nat) (h : n < 2 ^ 31) : toInt n = (n : Int) := by
  unfold toInt wrapInt
  omega

/-- The calls added by a run are the suffix the run appended to the trace. -/
theorem newEvents_of_trace (w r : World F) (evs : List (Event F))
    (h : r.trace = w.trace ++ evs) : newEvents w r = evs := by
  simp [newEvents, h]

theorem setFrameNative_newEvents (fb : CVPixelBuffer) (pos : SCNVector3 F)
    (rot : SCNVector4 F) (w : World F) :
    newEvents w (after (setFrameNative fb pos rot) w) = setFrameEvents fb pos rot w.mem :=
  newEvents_of_trace _ _ _ (setFrameNative_trace fb pos rot w)

theorem initializeSDK_trace (apiKey mapPath appBasePath : CString) (swiftContext : VoidPtr)
    (cb : result_callback) (w : World F) :
    (after (initializeSDK apiKey mapPath appBasePath swiftContext cb) w).trace
      = w.trace ++ [.PNInitialize ⟨apiKey, appBasePath, mapPath⟩ cb swiftContext] := rfl

theorem setIntrinsicsNative_trace [Zero F] (width height : Int) (calibMat : matrix_float3x3 F)
    (w : World F) :
    (after (setIntrinsicsNative width height calibMat) w).trace
      = w.trace ++ [.PNSetIntrinsics ⟨width, height, (calibMat.columns 0).x,
          (calibMat.columns 1).y, (calibMat.columns 2).x, (calibMat.columns 2).y, 0, 0, 0, 0⟩] :=
  rfl

theorem getPoseNative_after (w : World F) :
    after getPoseNative w = { w with trace := w.trace ++ [.PNGetPose w.uninit.pose] } := rfl

/-- The `PNSetFrame` calls among the external calls of `setFrameNative`. -/
theorem frameCalls_setFrameEvents (fb : CVPixelBuffer) (pos : SCNVector3 F)
    (rot : SCNVector4 F) (m : Memory) :
    frameCalls (setFrameEvents fb pos rot m) =
      [⟨⟨.heap m.next 0, toInt (fb.planes 0).width, toInt (fb.planes 0).height,
          toInt (fb.planes 0).bytesPerRow⟩,
        ⟨.heap (m.next + 1) 0, toInt (fb.planes 1).width, toInt (fb.planes 1).height,
          toInt (fb.planes 1).bytesPerRow⟩,
        ⟨⟨pos.x, pos.y, pos.z⟩, ⟨rot.x, rot.y, rot.z, rot.w⟩⟩,
        frameMemory fb m⟩] := rfl

/-- When the `int` stride and height of a plane are non-negative and their product fits
in a signed 32-bit `int`, the byte count computed for the plane is the mathematical
product. -/
theorem numBytesOf_of_fits (p : CVPlane) (hs : 0 ≤ toInt p.bytesPerRow)
    (hh : 0 ≤ toInt p.height) (hp : toInt p.bytesPerRow * toInt p.height < 2 ^ 31) :
    numBytesOf p = (toInt p.bytesPerRow * toInt p.height).toNat :=
  toULong_mulInt_of_fits _ _ (Int.mul_nonneg hs hh) hp

/-! ### C1 -/

/-- C1: when the `int` strides and heights of plane 0 and plane 1 are non-negative and
each product stride * height fits in a signed 32-bit `int`, the one `PNSetFrame` call of
`setFrameNative` receives a Y buffer that is exactly the first `yStride * yHeight` bytes
at the base address of plane 0 and a UV buffer that is exactly the first
`uvStride * uvHeight` bytes at the base address of plane 1, byte for byte and in order.
(For a plane whose stride and height are below `2 ^ 31` the `int` values are the plane's
own numbers, by `toInt_of_fits`.) -/
theorem setFrameNative_buffers_are_plane_bytes (fb : CVPixelBuffer) (pos : SCNVector3 F)
    (rot : SCNVector4 F) (w : World F)
    (hyS : 0 ≤ toInt (fb.planes 0).bytesPerRow) (hyH : 0 ≤ toInt (fb.planes 0).height)
    (hyP : toInt (fb.planes 0).bytesPerRow * toInt (fb.planes 0).height < 2 ^ 31)
    (huvS : 0 ≤ toInt (fb.planes 1).bytesPerRow) (huvH : 0 ≤ toInt (fb.planes 1).height)
    (huvP : toInt (fb.planes 1).bytesPerRow * toInt (fb.planes 1).height < 2 ^ 31) :
    ∃ c : FrameCall F,
      frameCalls (newEvents w (after (setFrameNative fb pos rot) w)) = [c] ∧
      c.mem.buffer c.yPlane.buf
        = fb.read (fb.planes 0).baseAddress
            (toInt (fb.planes 0).bytesPerRow * toInt (fb.planes 0).height).toNat ∧
      c.mem.buffer c.vuPlane.buf
        = fb.read (fb.planes 1).baseAddress
            (toInt (fb.planes 1).bytesPerRow * toInt (fb.planes 1).height).toNat := by
  refine ⟨_, by rw [setFrameNative_newEvents, frameCalls_setFrameEvents], ?_, ?_⟩
  · rw [frameMemory_buffer_y, numBytesOf_of_fits _ hyS hyH hyP]
  · rw [frameMemory_buffer_uv, numBytesOf_of_fits _ huvS huvH huvP]

theorem setFrameNative_buffers_are_plane_bytes_witness :
    ∃ c : FrameCall Int,
      frameCalls (newEvents exampleWorld
        (after (setFrameNative exampleFrame examplePosition exampleRotation) exampleWorld)) = [c] ∧
      c.mem.buffer c.yPlane.buf = [0, 1, 2, 3, 4, 5] ∧
      c.mem.buffer c.vuPlane.buf = [10, 11, 12, 13] :=
  setFrameNative_buffers_are_plane_bytes exampleFrame examplePosition exampleRotation
    exampleWorld (by decide) (by decide) (by decide) (by decide) (by decide) (by decide)

/-! ### C2 -/

/-- C2: when the widths, heights and row strides of plane 0 and plane 1 are representable
as a signed 32-bit `int`, the first descriptor given to `PNSetFrame` has the width, height
and bytes-per-row of plane 0 and the second has those of plane 1. -/
theorem setFrameNative_descriptors_carry_own_plane (fb : CVPixelBuffer) (pos : SCNVector3 F)
    (rot : SCNVector4 F) (w : World F)
    (hw0 : (fb.planes 0).width < 2 ^ 31) (hh0 : (fb.planes 0).height < 2 ^ 31)
    (hs0 : (fb.planes 0).bytesPerRow < 2 ^ 31)
    (hw1 : (fb.planes 1).width < 2 ^ 31) (hh1 : (fb.planes 1).height < 2 ^ 31)
    (hs1 : (fb.planes 1).bytesPerRow < 2 ^ 31) :
    ∃ c : FrameCall F,
      frameCalls (newEvents w (after (setFrameNative fb pos rot) w)) = [c] ∧
      c.yPlane.width = ((fb.planes 0).width : Int) ∧
      c.yPlane.height = ((fb.planes 0).height : Int) ∧
      c.yPlane.stride = ((fb.planes 0).bytesPerRow : Int) ∧
      c.vuPlane.width = ((fb.planes 1).width : Int) ∧
      c.vuPlane.height = ((fb.planes 1).height : Int) ∧
      c.vuPlane.stride = ((fb.planes 1).bytesPerRow : Int) := by
  refine ⟨_, by rw [setFrameNative_newEvents, frameCalls_setFrameEvents],
    ?_, ?_, ?_, ?_, ?_, ?_⟩
  · exact toInt_of_fits _ hw0
  · exact toInt_of_fits _ hh0
  · exact toInt_of_fits _ hs0
  · exact toInt_of_fits _ hw1
  · exact toInt_of_fits _ hh1
  · exact toInt_of_fits _ hs1

theorem setFrameNative_descriptors_carry_own_plane_witness :
    ∃ c : FrameCall Int,
      frameCalls (newEvents exampleWorld
        (after (setFrameNative exampleFrame examplePosition exampleRotation) exampleWorld)) = [c] ∧
      c.yPlane.width = 2 ∧ c.yPlane.height = 2 ∧ c.yPlane.stride = 3 ∧
      c.vuPlane.width = 2 ∧ c.vuPlane.height = 1 ∧ c.vuPlane.stride = 4 :=
  setFrameNative_descriptors_carry_own_plane exampleFrame examplePosition exampleRotation
    exampleWorld (by decide) (by decide) (by decide) (by decide) (by decide) (by decide)

/-! ### C3 -/

/-- C3: the pose given to the one `PNSetFrame` call of `setFrameNative` has position
(x, y, z) and rotation (x, y, z, w) equal to those of the arguments, component for
component, whatever the pixel buffer and the world. -/
theorem setFrameNative_pose_is_copied (fb : CVPixelBuffer) (pos : SCNVector3 F)
    (rot : SCNVector4 F) (w : World F) :
    (frameCalls (newEvents w (after (setFrameNative fb pos rot) w))).map FrameCall.pose
      = [⟨⟨pos.x, pos.y, pos.z⟩, ⟨rot.x, rot.y, rot.z, rot.w⟩⟩] := by
  rw [setFrameNative_newEvents, frameCalls_setFrameEvents]
  rfl

/-! ### C4 -/

/-- C4: the struct given to the one `PNSetIntrinsics` call of `setIntrinsicsNative` has
`width` and `height` equal to the arguments, `fx = M.columns[0].x`, `fy = M.columns[1].y`,
`cx = M.columns[2].x`, `cy = M.columns[2].y`; and every matrix that agrees with `M` on
these four entries yields the same struct, so the six other entries have no influence. -/
theorem setIntrinsicsNative_fields [Zero F] (width height : Int) (M : matrix_float3x3 F)
    (w : World F) :
    ∃ i : PNCameraInstrinsics F,
      intrinsicsCalls (newEvents w (after (setIntrinsicsNative width height M) w)) = [i] ∧
      i.width = width ∧ i.height = height ∧
      i.fx = (M.columns 0).x ∧ i.fy = (M.columns 1).y ∧
      i.cx = (M.columns 2).x ∧ i.cy = (M.columns 2).y ∧
      ∀ M2 : matrix_float3x3 F,
        (M2.columns 0).x = (M.columns 0).x → (M2.columns 1).y = (M.columns 1).y →
        (M2.columns 2).x = (M.columns 2).x → (M2.columns 2).y = (M.columns 2).y →
        intrinsicsCalls (newEvents w (after (setIntrinsicsNative width height M2) w)) = [i] := by
  refine ⟨⟨width, height, (M.columns 0).x, (M.columns 1).y, (M.columns 2).x, (M.columns 2).y,
    0, 0, 0, 0⟩, ?_, rfl, rfl, rfl, rfl, rfl, rfl, ?_⟩
  · rw [newEvents_of_trace _ _ _ (setIntrinsicsNative_trace width height M w)]
    rfl
  · intro M2 h1 h2 h3 h4
    rw [newEvents_of_trace _ _ _ (setIntrinsicsNative_trace width height M2 w), h1, h2, h3, h4]
    rfl

/-! ### C5 -/

/-- C5: `initializeSDK apiKey mapPath appBasePath swiftContext cb` calls `PNInitialize`
once, with a params struct whose `apiKey`, `mapPath` and `appBasePath` are the arguments of
the same name, with `cb` as the callback (second) argument and `swiftContext` as the
context (third) argument. -/
theorem initializeSDK_forwards (apiKey mapPath appBasePath : CString) (swiftContext : VoidPtr)
    (cb : result_callback) (w : World F) :
    ∃ params : PNInitParams,
      initCalls (newEvents w
        (after (initializeSDK apiKey mapPath appBasePath swiftContext cb) w))
        = [(params, cb, swiftContext)] ∧
      params.apiKey = apiKey ∧ params.mapPath = mapPath ∧ params.appBasePath = appBasePath := by
  refine ⟨⟨apiKey, appBasePath, mapPath⟩, ?_, rfl, rfl, rfl⟩
  rw [newEvents_of_trace _ _ _
    (initializeSDK_trace apiKey mapPath appBasePath swiftContext cb w)]
  rfl

/-! ### C6 -/

/-- C6: `getPoseNative` returns exactly the struct the engine leaves behind the pointer
given to `PNGetPose`, component for component; it has no parameter, and the only thing it
changes in the world is the trace, which gains that one `PNGetPose` call. -/
theorem getPoseNative_returns_engine_pose (w : World F) :
    result getPoseNative w = w.engine.getPose w.trace w.uninit.pose ∧
    (result getPoseNative w).position.x = (w.engine.getPose w.trace w.uninit.pose).position.x ∧
    (result getPoseNative w).position.y = (w.engine.getPose w.trace w.uninit.pose).position.y ∧
    (result getPoseNative w).position.z = (w.engine.getPose w.trace w.uninit.pose).position.z ∧
    (result getPoseNative w).rotation.x = (w.engine.getPose w.trace w.uninit.pose).rotation.x ∧
    (result getPoseNative w).rotation.y = (w.engine.getPose w.trace w.uninit.pose).rotation.y ∧
    (result getPoseNative w).rotation.z = (w.engine.getPose w.trace w.uninit.pose).rotation.z ∧
    (result getPoseNative w).rotation.w = (w.engine.getPose w.trace w.uninit.pose).rotation.w ∧
    after getPoseNative w = { w with trace := w.trace ++ [.PNGetPose w.uninit.pose] } :=
  ⟨rfl, rfl, rfl, rfl, rfl, rfl, rfl, rfl, rfl⟩

/-! ### C7 -/

theorem engineCalls_append (t u : List (Event F)) :
    engineCalls (t ++ u) = engineCalls t ++ engineCalls u := by
  simp [engineCalls, List.filterMap_append]

/-- The one engine call among the external calls of `setFrameNative`, as the engine
observes it. -/
theorem engineCalls_setFrameEvents [Zero F] (fb : CVPixelBuffer) (pos : SCNVector3 F)
    (rot : SCNVector4 F) (m : Memory) :
    engineCalls (setFrameEvents fb pos rot m)
      = [(ShimCall.setFrameNative fb pos rot).engineCall] := by
  have h : engineCalls (setFrameEvents fb pos rot m)
      = [.PNSetFrame
          ⟨(frameMemory fb m).buffer (.heap m.next 0), toInt (fb.planes 0).width,
            toInt (fb.planes 0).height, toInt (fb.planes 0).bytesPerRow⟩
          ⟨(frameMemory fb m).buffer (.heap (m.next + 1) 0), toInt (fb.planes 1).width,
            toInt (fb.planes 1).height, toInt (fb.planes 1).bytesPerRow⟩
          ⟨⟨pos.x, pos.y, pos.z⟩, ⟨rot.x, rot.y, rot.z, rot.w⟩⟩] := rfl
  rw [h, frameMemory_buffer_y, frameMemory_buffer_uv]
  rfl

/-- One call of the shim adds exactly one engine call, the one determined by its
arguments. -/
theorem exec_engineCalls [Zero F] (c : ShimCall F) (w : World F) :
    engineCalls (c.exec w).trace = engineCalls w.trace ++ [c.engineCall] := by
  cases c with
  | initializeSDK apiKey mapPath appBasePath swiftContext cb =>
    show engineCalls (after (initializeSDK apiKey mapPath appBasePath swiftContext cb) w).trace
      = _
    rw [initializeSDK_trace, engineCalls_append]
    rfl
  | setIntrinsicsNative width height calibMat =>
    show engineCalls (after (setIntrinsicsNative width height calibMat) w).trace = _
    rw [setIntrinsicsNative_trace, engineCalls_append]
    rfl
  | setFrameNative fb pos rot =>
    show engineCalls (after (setFrameNative fb pos rot) w).trace = _
    rw [setFrameNative_trace, engineCalls_append, engineCalls_setFrameEvents]
  | getPoseNative =>
    show engineCalls (after getPoseNative w).trace = _
    rw [getPoseNative_after, engineCalls_append]
    rfl

/-- With an allocator that satisfies every request: for every sequence of calls of the
four entry points, from every world, the engine calls are, in order, one per call of
the shim, the one `ShimCall.engineCall` determines from the arguments of that call. -/
theorem run_engineCalls [Zero F] (calls : List (ShimCall F)) (w : World F) :
    engineCalls (run calls w).trace
      = engineCalls w.trace ++ calls.map ShimCall.engineCall := by
  induction calls generalizing w with
  | nil => simp [run]
  | cons c cs ih =>
    have h : run (c :: cs) w = run cs (c.exec w) := rfl
    rw [h, ih, exec_engineCalls]
    simp

/-- One call of the shim only appends to the trace. -/
theorem exec_trace [Zero F] (c : ShimCall F) (w : World F) :
    ∃ evs, (c.exec w).trace = w.trace ++ evs := by
  cases c with
  | initializeSDK apiKey mapPath appBasePath swiftContext cb =>
    exact ⟨_, initializeSDK_trace apiKey mapPath appBasePath swiftContext cb w⟩
  | setIntrinsicsNative width height calibMat =>
    exact ⟨_, setIntrinsicsNative_trace width height calibMat w⟩
  | setFrameNative fb pos rot => exact ⟨_, setFrameNative_trace fb pos rot w⟩
  | getPoseNative => exact ⟨_, congrArg World.trace (getPoseNative_after w)⟩

/-- A sequence of calls of the shim only appends to the trace. -/
theorem run_trace [Zero F] (calls : List (ShimCall F)) (w : World F) :
    ∃ evs, (run calls w).trace = w.trace ++ evs := by
  induction calls generalizing w with
  | nil => exact ⟨[], by simp [run]⟩
  | cons c cs ih =>
    obtain ⟨e1, h1⟩ := exec_trace c w
    obtain ⟨e2, h2⟩ := ih (c.exec w)
    refine ⟨e1 ++ e2, ?_⟩
    have h : run (c :: cs) w = run cs (c.exec w) := rfl
    rw [h, h2, h1, List.append_assoc]

/-- A trace in which no `malloc` returns `NULL` is performed to its end. -/
theorem performedFrom_of_satisfiable (t : List (Event F))
    (h : ∀ n ∈ mallocSizes t, mallocReturnsNull n = false) : performedFrom [] t = t := by
  induction t with
  | nil => rfl
  | cons e t ih =>
    have ht : ∀ n ∈ mallocSizes t, mallocReturnsNull n = false := by
      intro n hn
      apply h
      cases e <;> simp_all [mallocSizes]
    cases e with
    | malloc n p =>
      have hn : mallocReturnsNull n = false := h n (by simp [mallocSizes])
      simp [performedFrom, hn, ih ht]
    | memcpy dst src n => simp [performedFrom, ih ht]
    | _ => simp [performedFrom, ih ht]

/-- Where no request to `malloc` is beyond the address space, a real process makes the
engine calls of the whole sequence: one per call of the shim, determined by the
arguments of that call. -/
theorem run_engineCalls_performed [Zero F] (calls : List (ShimCall F)) (w : World F)
    (h : ∀ n ∈ mallocSizes (newEvents w (run calls w)), mallocReturnsNull n = false) :
    engineCalls (performed (newEvents w (run calls w))) = calls.map ShimCall.engineCall := by
  obtain ⟨evs, hevs⟩ := run_trace calls w
  have hnew : newEvents w (run calls w) = evs := newEvents_of_trace _ _ _ hevs
  have hall := run_engineCalls calls w
  rw [hevs, engineCalls_append] at hall
  rw [performed, performedFrom_of_satisfiable _ h, hnew]
  exact List.append_cancel_left hall

/-- C7 at one call of `setFrameNative` on the buffer whose plane 0 has 46341 rows of
46341 bytes: the claim expects one engine call, `PNSetFrame`; the request to `malloc` is
for 18446744071562072601 bytes, `malloc` returns `NULL`, and the process dies in the
first `memcpy`, having made no engine call.  On the small buffer `exampleFrame` the same
process makes the one engine call. -/
theorem setFrameNative_dies_before_engine_call :
    ([ShimCall.setFrameNative hugeFrame examplePosition exampleRotation].map
      ShimCall.engineCall).length = 1 ∧
    mallocSizes (performed (newEvents exampleWorld
      (run [ShimCall.setFrameNative hugeFrame examplePosition exampleRotation] exampleWorld)))
      = [18446744071562072601, 0] ∧
    mallocReturnsNull 18446744071562072601 = true ∧
    memcpySizes (performed (newEvents exampleWorld
      (run [ShimCall.setFrameNative hugeFrame examplePosition exampleRotation] exampleWorld)))
      = [18446744071562072601] ∧
    (engineCalls (performed (newEvents exampleWorld
      (run [ShimCall.setFrameNative hugeFrame examplePosition exampleRotation]
        exampleWorld)))).length = 0 ∧
    (engineCalls (performed (newEvents exampleWorld
      (run [ShimCall.setFrameNative exampleFrame examplePosition exampleRotation]
        exampleWorld)))).length = 1 := by
  have hrun : ∀ fb : CVPixelBuffer,
      newEvents exampleWorld
        (run [ShimCall.setFrameNative fb examplePosition exampleRotation] exampleWorld)
      = setFrameEvents fb examplePosition exampleRotation exampleWorld.mem :=
    fun fb => setFrameNative_newEvents fb examplePosition exampleRotation exampleWorld
  rw [hrun, hrun]
  refine ⟨rfl, ?_, ?_, ?_, ?_, ?_⟩ <;> decide

/-! ### C8 -/

/-- C8: the struct given to the one `PNSetIntrinsics` call of `setIntrinsicsNative` has
`k1`, `k2`, `p1` and `p2` all zero, whatever the width, the height and the matrix. -/
theorem setIntrinsicsNative_no_distortion [Zero F] (width height : Int)
    (M : matrix_float3x3 F) (w : World F) :
    ∃ i : PNCameraInstrinsics F,
      intrinsicsCalls (newEvents w (after (setIntrinsicsNative width height M) w)) = [i] ∧
      i.k1 = 0 ∧ i.k2 = 0 ∧ i.p1 = 0 ∧ i.p2 = 0 := by
  refine ⟨⟨width, height, (M.columns 0).x, (M.columns 1).y, (M.columns 2).x, (M.columns 2).y,
    0, 0, 0, 0⟩, ?_, rfl, rfl, rfl, rfl⟩
  rw [newEvents_of_trace _ _ _ (setIntrinsicsNative_trace width height M w)]
  rfl

/-! ### C9 -/

/-- C9 at a plane of 46341 rows of 46341 bytes: stride and height are non-negative and
representable as a signed 32-bit `int`, yet `setFrameNative` asks `malloc` for, and tells
`memcpy` to copy, 18446744071562072601 bytes for plane 0, which is not the product
46341 * 46341 = 2147488281. -/
theorem setFrameNative_numBytes_overflow :
    toInt (hugeFrame.planes 0).bytesPerRow = 46341 ∧
    toInt (hugeFrame.planes 0).height = 46341 ∧
    mallocSizes (newEvents exampleWorld
      (after (setFrameNative hugeFrame examplePosition exampleRotation) exampleWorld))
      = [18446744071562072601, 0] ∧
    memcpySizes (newEvents exampleWorld
      (after (setFrameNative hugeFrame examplePosition exampleRotation) exampleWorld))
      = [18446744071562072601, 0] ∧
    (18446744071562072601 : Nat) ≠ 46341 * 46341 := by
  rw [setFrameNative_newEvents]
  refine ⟨by decide, by decide, ?_, ?_, by decide⟩
  · decide
  · decide

/-! ### C10 -/

/-- C10: in every call of `setFrameNative` the external calls are exactly those of
`setFrameEvents`, in that order: one lock, then the two base-address reads and the two
copies, then one unlock, then `PNSetFrame` on the two `malloc` blocks, then the two
`free`s.  The lock is given `kCVPixelBufferLock_ReadOnly`, the unlock is given `0`, and
the two flags differ. -/
theorem setFrameNative_unlock_flags_differ (fb : CVPixelBuffer) (pos : SCNVector3 F)
    (rot : SCNVector4 F) (w : World F) :
    newEvents w (after (setFrameNative fb pos rot) w) = setFrameEvents fb pos rot w.mem ∧
    lockFlags (newEvents w (after (setFrameNative fb pos rot) w))
      = [kCVPixelBufferLock_ReadOnly] ∧
    unlockFlags (newEvents w (after (setFrameNative fb pos rot) w)) = [0] ∧
    kCVPixelBufferLock_ReadOnly ≠ 0 := by
  rw [setFrameNative_newEvents]
  exact ⟨rfl, rfl, rfl, by decide⟩

end Placenote
